import Mathlib

/-!
Shallow embedding of the `siddecfp` GStreamer element
(`src/gst-plugin/gstsiddecfp.cc`): the unit converter
(`gst_siddecfp_src_convert`), the ingest path (`gst_siddecfp_chain`),
format negotiation (`siddecfp_negotiate`), ROM property assignment
(`copy_byte_array` / `gst_siddecfp_set_property`), the session build
sequence (`start_play_tune` via `gst_siddecfp_sink_event`), and the
production loop (`play_loop`).  Machine integers are modelled as `Nat`
and `Int`; the 64-bit behaviour of the GStreamer scaling helper is made
explicit because the element feeds `gint64` values through it.
-/

namespace SidDecFp

/-- `GST_SECOND`: one second in nanoseconds, the GStreamer time unit. -/
def GST_SECOND : Nat := 1000000000

/-- Largest value representable in a `guint64`. -/
def G_MAXUINT64 : Nat := 2 ^ 64 - 1

/-- Reinterpret a signed 64-bit (`gint64`) value as the `guint64` with the
same two's-complement bit pattern. -/
def toGuint64 (v : Int) : Nat := (v % (2 : Int) ^ 64).toNat

/-- Reinterpret a `guint64` bit pattern as the signed 64-bit (`gint64`)
value with the same two's-complement representation. -/
def toGint64 (n : Nat) : Int :=
  if n < 2 ^ 63 then (n : Int) else (n : Int) - 2 ^ 64

/-- `gst_util_uint64_scale_int val num denom`: scales `val` by `num /
denom` with a full-precision multiply before the (truncating) divide.
Per the GStreamer contract it returns `G_MAXUINT64` when the true result
overflows an unsigned 64-bit integer. -/
def gst_util_uint64_scale_int (val num denom : Nat) : Nat :=
  min (val * num / denom) G_MAXUINT64

/-- The `GstFormat` values handled by `gst_siddecfp_src_convert`:
`default` is sample offsets, plus the byte and time domains; `other`
stands for any remaining format, which the converter rejects. -/
inductive GstFormat where
  | default
  | bytes
  | time
  | other
  deriving DecidableEq, Repr

/-- `gst_siddecfp_src_convert` (gstsiddecfp.cc:793-869).  `playback` is
`siddecfp->config.playback` (`MONO = 1`, `STEREO = 2`) and `frequency`
is `siddecfp->config.frequency`.  Returns `none` where the C function
returns `FALSE` leaving `*dest_value` unwritten.  Same-format requests
are answered before `bytes_per_sample` is consulted.  The `gint64`
division for BYTES -> DEFAULT is C truncating division (`Int.tdiv`);
the scaled conversions pass the `gint64` source through the unsigned
64-bit scaling helper exactly as the C code does. -/
def gst_siddecfp_src_convert (playback frequency : Nat)
    (src_format : GstFormat) (src_value : Int) (dest_format : GstFormat) :
    Option Int :=
  if src_format = dest_format then some src_value
  else
    let bytes_per_sample : Nat := (16 >>> 3) * playback
    match src_format, dest_format with
    | .bytes, .default =>
        if bytes_per_sample = 0 then none
        else some (Int.tdiv src_value (bytes_per_sample : Int))
    | .bytes, .time =>
        let byterate := bytes_per_sample * frequency
        if byterate = 0 then none
        else some (toGint64
          (gst_util_uint64_scale_int (toGuint64 src_value) GST_SECOND byterate))
    | .default, .bytes =>
        some (src_value * (bytes_per_sample : Int))
    | .default, .time =>
        if frequency = 0 then none
        else some (toGint64
          (gst_util_uint64_scale_int (toGuint64 src_value) GST_SECOND frequency))
    | .time, .bytes =>
        some (toGint64 (gst_util_uint64_scale_int (toGuint64 src_value)
          (bytes_per_sample * frequency) GST_SECOND))
    | .time, .default =>
        some (toGint64 (gst_util_uint64_scale_int (toGuint64 src_value)
          (1 * frequency) GST_SECOND))
    | _, _ => none

/-- `MAX_SID_TUNE_BUF_SIZE = 8 * DEFAULT_BLOCKSIZE` (gstsiddecfp.cc:69-71). -/
def DEFAULT_BLOCKSIZE : Nat := 4096

def MAX_SID_TUNE_BUF_SIZE : Nat := 8 * DEFAULT_BLOCKSIZE

/-- `gst_siddecfp_chain` (gstsiddecfp.cc:764-791) restricted to its
effect on `tune_len`: a chunk of `size` bytes is appended unless the
resulting length would exceed `MAX_SID_TUNE_BUF_SIZE`, in which case a
stream error is posted and the stored length is left untouched
(`none`). -/
def gst_siddecfp_chain (tune_len size : Nat) : Option Nat :=
  if MAX_SID_TUNE_BUF_SIZE < tune_len + size then none
  else some (tune_len + size)

/-- Repeated application of `gst_siddecfp_chain` to a sequence of chunk
sizes; `none` as soon as one append overflows. -/
def ingest (tune_len : Nat) : List Nat → Option Nat
  | [] => some tune_len
  | c :: cs =>
      match gst_siddecfp_chain tune_len c with
      | none => none
      | some len2 => ingest len2 cs

/-- The audio formats relevant to `siddecfp_negotiate`: the element
accepts only native-endian signed 16-bit (`GST_AUDIO_FORMAT_S16`);
every other parsed format falls to the rejecting `default` branch. -/
inductive GstAudioFormat where
  | s16
  | otherFormat
  deriving DecidableEq, Repr

/-- The first structure of the normalized allowed caps, as read by
`siddecfp_negotiate`: an optional format string (already parsed), and
optional `rate` / `channels` integer fields (`gst_structure_get_int`
leaves the local default in place when the field is absent). -/
structure CapsStructure where
  format : Option GstAudioFormat
  rate : Option Nat
  channels : Option Nat
  deriving DecidableEq, Repr

/-- The part of `SidConfig` that `siddecfp_negotiate` writes:
`config.frequency` and `config.playback` (`MONO = 1`, `STEREO = 2`). -/
structure NegotiatedConfig where
  frequency : Nat
  playback : Nat
  deriving DecidableEq, Repr

/-- `siddecfp_negotiate` (gstsiddecfp.cc:517-607) restricted to its
format decision: `allowed = none` models `gst_pad_get_allowed_caps`
returning `NULL` (`nothing_allowed`); a missing or non-S16 format field
is `invalid_format`; otherwise the local defaults `rate = 44100`,
`channels = 1` are overridden by the fields the candidate declares and
stored as `config.frequency` / `config.playback`. -/
def siddecfp_negotiate (allowed : Option CapsStructure) :
    Option NegotiatedConfig :=
  match allowed with
  | none => none
  | some s =>
      match s.format with
      | none => none
      | some .otherFormat => none
      | some .s16 =>
          let rate := s.rate.getD 44100
          let channels := s.channels.getD 1
          some { frequency := rate, playback := if channels = 1 then 1 else 2 }

/-- A `GByteArray` payload. -/
def ByteArr : Type := List Nat

instance : DecidableEq ByteArr := inferInstanceAs (DecidableEq (List Nat))

instance : Repr ByteArr := inferInstanceAs (Repr (List Nat))

/-- `copy_byte_array old src expected_size` (gstsiddecfp.cc:917-927).
The old array is freed first in every case; `NULL` or a wrong-sized
source yields `NULL`, otherwise a fresh copy of `src` is returned. -/
def copy_byte_array (old : Option ByteArr) (src : Option ByteArr)
    (expected_size : Nat) : Option ByteArr :=
  match old, src with
  | _, none => none
  | _, some s => if s.length ≠ expected_size then none else some s

/-- The three ROM slots of `GstSidDecFp`. -/
structure RomState where
  kernal : Option ByteArr
  basic : Option ByteArr
  chargen : Option ByteArr
  deriving DecidableEq, Repr

/-- The three ROM properties. -/
inductive RomProp where
  | kernal
  | basic
  | chargen
  deriving DecidableEq, Repr

/-- `gst_siddecfp_set_property` (gstsiddecfp.cc:975-983) restricted to
the ROM properties: each slot is reassigned to
`copy_byte_array old value expected` with expected sizes 8192, 8192 and
4096 bytes for kernal, basic and chargen respectively. -/
def gst_siddecfp_set_property_rom (st : RomState) (p : RomProp)
    (value : Option ByteArr) : RomState :=
  match p with
  | .kernal => { st with kernal := copy_byte_array st.kernal value 8192 }
  | .basic => { st with basic := copy_byte_array st.basic value 8192 }
  | .chargen => { st with chargen := copy_byte_array st.chargen value 4096 }

/-- `GstFlowReturn` values, as signed integers. -/
def GST_FLOW_OK : Int := 0

def GST_FLOW_NOT_LINKED : Int := -1

def GST_FLOW_FLUSHING : Int := -2

def GST_FLOW_EOS : Int := -3

def GST_FLOW_ERROR : Int := -5

/-- What the tail of `play_loop` does with a push result. -/
structure PushOutcome where
  loopStops : Bool
  eosPushed : Bool
  errorReported : Bool
  deriving DecidableEq, Repr

/-- The push-result handling of `play_loop` (gstsiddecfp.cc:653-677):
any result other than `GST_FLOW_OK` jumps to `pause`, which pushes an
end-of-stream event for `GST_FLOW_EOS`, posts a flow error and pushes
end-of-stream for results below `GST_FLOW_EOS` or equal to
`GST_FLOW_NOT_LINKED`, and in every case pauses the task. -/
def play_loop_push_result (ret : Int) : PushOutcome :=
  if ret ≠ GST_FLOW_OK then
    if ret = GST_FLOW_EOS then
      { loopStops := true, eosPushed := true, errorReported := false }
    else if ret < GST_FLOW_EOS ∨ ret = GST_FLOW_NOT_LINKED then
      { loopStops := true, eosPushed := true, errorReported := true }
    else
      { loopStops := true, eosPushed := false, errorReported := false }
  else
    { loopStops := false, eosPushed := false, errorReported := false }

/-- The gated build steps of `start_play_tune`, in source order. -/
inductive BuildStep where
  | selectSong
  | load
  | negotiate
  | createBuilder
  deriving DecidableEq, Repr

/-- Observable actions of `start_play_tune`. -/
inductive BuildEvent where
  | attempt (s : BuildStep)
  | errorReported (s : BuildStep)
  | segmentEvent
  | resetPosition
  | startTask
  deriving DecidableEq, Repr

/-- Outcomes of the four gated calls inside `start_play_tune`
(`tune->selectSong`, `player->load`, `siddecfp_negotiate`,
`create_builder`). -/
structure BuildOutcomes where
  selectSongOk : Bool
  loadOk : Bool
  negotiateOk : Bool
  createBuilderOk : Bool
  deriving DecidableEq, Repr

/-- `start_play_tune` (gstsiddecfp.cc:680-738) as an event trace plus
its boolean result: each gated step is attempted in source order, the
first failing step posts its element error and returns `FALSE`
immediately; only when all four succeed are the segment event pushed,
`total_bytes` reset to 0, and the streaming task started. -/
def start_play_tune (o : BuildOutcomes) : List BuildEvent × Bool :=
  if !o.selectSongOk then
    ([.attempt .selectSong, .errorReported .selectSong], false)
  else if !o.loadOk then
    ([.attempt .selectSong, .attempt .load, .errorReported .load], false)
  else if !o.negotiateOk then
    ([.attempt .selectSong, .attempt .load, .attempt .negotiate,
      .errorReported .negotiate], false)
  else if !o.createBuilderOk then
    ([.attempt .selectSong, .attempt .load, .attempt .negotiate,
      .attempt .createBuilder, .errorReported .createBuilder], false)
  else
    ([.attempt .selectSong, .attempt .load, .attempt .negotiate,
      .attempt .createBuilder, .segmentEvent, .resetPosition, .startTask],
     true)

/-- Sink events as dispatched by `gst_siddecfp_sink_event`. -/
inductive SinkEvent where
  | eos
  | segment
  | otherEvent
  deriving DecidableEq, Repr

/-- `gst_siddecfp_sink_event` (gstsiddecfp.cc:740-762): an end-of-input
event triggers `start_play_tune`; segment and all other events are
dropped with result `TRUE` and an empty trace. -/
def gst_siddecfp_sink_event (o : BuildOutcomes) :
    SinkEvent → List BuildEvent × Bool
  | .eos => start_play_tune o
  | .segment => ([], true)
  | .otherEvent => ([], true)

/-- The buffer produced by one `play_loop` iteration.  A `none` stamp
models the corresponding `GST_BUFFER_*` macro never being assigned
(left at its `GST_*_NONE` default) because the conversion returned
`FALSE`. -/
structure OutBuffer where
  size : Nat
  offset : Option Int
  timestamp : Option Int
  offsetEnd : Option Int
  duration : Option Int
  deriving DecidableEq, Repr

/-- One iteration of `play_loop` (gstsiddecfp.cc:609-654).  `play`
models `siddecfp->player->play`: given the requested sample count it
returns the count actually produced; the C code requests
`blocksize / 2` samples and turns the result into
`play_bytes = ret * 2`.  The buffer is allocated with `blocksize`
bytes; offset and timestamp come from `total_bytes` before the
advance, end offset and duration from `total_bytes` after it; the
local `time` variable starts at 0 and keeps that value when the
timestamp conversion fails.  Returns the stamped buffer and the new
`total_bytes`. -/
def play_loop_iter (playback frequency blocksize : Nat) (play : Nat → Nat)
    (total_bytes : Nat) : OutBuffer × Nat :=
  let play_bytes := play (blocksize / 2) * 2
  let off? := gst_siddecfp_src_convert playback frequency
    .bytes (total_bytes : Int) .default
  let time? := gst_siddecfp_src_convert playback frequency
    .bytes (total_bytes : Int) .time
  let time : Int := time?.getD 0
  let total2 := total_bytes + play_bytes
  let offEnd? := gst_siddecfp_src_convert playback frequency
    .bytes (total2 : Int) .default
  let value? := gst_siddecfp_src_convert playback frequency
    .bytes (total2 : Int) .time
  ({ size := blocksize
   , offset := off?
   , timestamp := time?
   , offsetEnd := offEnd?
   , duration := value?.map (fun v => v - time) }, total2)

/-- `total_bytes` after `n` iterations of `play_loop` in one session:
`start_play_tune` resets it to 0, and iteration `m` lets the emulator
produce `play m (blocksize / 2)` samples. -/
def session_total (playback frequency blocksize : Nat)
    (play : Nat → Nat → Nat) : Nat → Nat
  | 0 => 0
  | n + 1 =>
      (play_loop_iter playback frequency blocksize (play n)
        (session_total playback frequency blocksize play n)).2

/-- The buffer pushed by iteration `n` of the session. -/
def session_buffer (playback frequency blocksize : Nat)
    (play : Nat → Nat → Nat) (n : Nat) : OutBuffer :=
  (play_loop_iter playback frequency blocksize (play n)
    (session_total playback frequency blocksize play n)).1

/-! ## Helper lemmas -/

theorem tdiv_natCast (a b : Nat) :
    Int.tdiv (a : Int) (b : Int) = ((a / b : Nat) : Int) := rfl

theorem toGuint64_ofNat (a : Nat) (h : a < 2 ^ 64) : toGuint64 (a : Int) = a := by
  unfold toGuint64
  rw [Int.emod_eq_of_lt (by positivity) (by exact_mod_cast h)]
  simp

theorem toGint64_small (n : Nat) (h : n < 2 ^ 63) : toGint64 n = (n : Int) := by
  unfold toGint64
  rw [if_pos h]

theorem convert_bytes_default (playback frequency : Nat) (hpb : 0 < playback)
    (v : Nat) :
    gst_siddecfp_src_convert playback frequency .bytes (v : Int) .default
      = some ((v / (2 * playback) : Nat) : Int) := by
  have e : (16 >>> 3) = 2 := rfl
  simp only [gst_siddecfp_src_convert]
  rw [if_neg (by decide : ¬(GstFormat.bytes = GstFormat.default))]
  rw [if_neg (show ¬((16 >>> 3) * playback = 0) from by omega)]
  rw [show (((16 >>> 3) * playback : Nat) : Int) = ((2 * playback : Nat) : Int)
    from rfl]
  rw [tdiv_natCast]

theorem convert_bytes_time_def (playback frequency : Nat)
    (h : ¬(2 * playback * frequency = 0)) (v : Int) :
    gst_siddecfp_src_convert playback frequency .bytes v .time
      = some (toGint64 (gst_util_uint64_scale_int (toGuint64 v) GST_SECOND
          (2 * playback * frequency))) := by
  have e : (16 >>> 3) = 2 := rfl
  simp only [gst_siddecfp_src_convert]
  rw [if_neg (by decide : ¬(GstFormat.bytes = GstFormat.time))]
  rw [if_neg (show ¬((16 >>> 3) * playback * frequency = 0) from by
    rw [show ((16 : Nat) >>> 3) = 2 from rfl]; exact h)]
  rfl

theorem convert_time_bytes_def (playback frequency : Nat) (v : Int) :
    gst_siddecfp_src_convert playback frequency .time v .bytes
      = some (toGint64 (gst_util_uint64_scale_int (toGuint64 v)
          (2 * playback * frequency) GST_SECOND)) := by
  simp only [gst_siddecfp_src_convert]
  rw [if_neg (by decide : ¬(GstFormat.time = GstFormat.bytes))]
  rfl

/-! ## Claim theorems -/

/-- C9: for each of the three domains BYTES, SAMPLES (`GST_FORMAT_DEFAULT`)
and TIME, converting a value from the domain to itself succeeds and
returns the value unchanged, for every configured `playback` and
`frequency` — including configurations with zero bytes per sample,
because the same-format branch answers before `bytes_per_sample` is
consulted. -/
theorem src_convert_same_domain_id (playback frequency : Nat) (x : Int) :
    gst_siddecfp_src_convert playback frequency .bytes x .bytes = some x
    ∧ gst_siddecfp_src_convert playback frequency .default x .default = some x
    ∧ gst_siddecfp_src_convert playback frequency .time x .time = some x := by
  refine ⟨?_, ?_, ?_⟩ <;> simp [gst_siddecfp_src_convert]

/-- C1 counterexample: assigning a 3-byte array to the kernal ROM of a
state that already holds an 8192-byte kernal ROM does not leave the
previously stored value unchanged: the slot ends up empty, because
`copy_byte_array` frees the old array before checking the new one's
size. -/
theorem rom_wrong_size_clears_previous_cex :
    (gst_siddecfp_set_property_rom
      { kernal := some (List.replicate 8192 0), basic := none, chargen := none }
      .kernal (some [1, 2, 3])).kernal = none
    ∧ (gst_siddecfp_set_property_rom
      { kernal := some (List.replicate 8192 0), basic := none, chargen := none }
      .kernal (some [1, 2, 3])).kernal ≠ some (List.replicate 8192 0) := by
  refine ⟨rfl, ?_⟩
  intro h
  exact Option.noConfusion h

/-- Selects one of the three ROM slots. -/
def romSlot (st : RomState) : RomProp → Option ByteArr
  | .kernal => st.kernal
  | .basic => st.basic
  | .chargen => st.chargen

/-- The expected byte size each ROM property checks at assignment time. -/
def expectedRomSize : RomProp → Nat
  | .kernal => 8192
  | .basic => 8192
  | .chargen => 4096

/-- C1 amended: a ROM assignment whose array has exactly the expected
size (8192 for kernal, 8192 for basic, 4096 for chargen) replaces the
stored value with a copy of the array; an assignment of any other size
(or of a null array) stores no new value, but it also discards the
previously stored value, leaving the slot empty rather than unchanged.
Other slots are never touched. -/
theorem set_property_rom_spec (st : RomState) (p : RomProp)
    (value : Option ByteArr) :
    (value = none →
      romSlot (gst_siddecfp_set_property_rom st p value) p = none)
    ∧ (∀ s, value = some s → s.length ≠ expectedRomSize p →
      romSlot (gst_siddecfp_set_property_rom st p value) p = none)
    ∧ (∀ s, value = some s → s.length = expectedRomSize p →
      romSlot (gst_siddecfp_set_property_rom st p value) p = some s)
    ∧ (∀ q, q ≠ p →
      romSlot (gst_siddecfp_set_property_rom st p value) q = romSlot st q) := by
  refine ⟨?_, ?_, ?_, ?_⟩
  · rintro rfl
    cases p <;> simp [gst_siddecfp_set_property_rom, copy_byte_array, romSlot]
  · rintro s rfl h
    cases p <;>
      simp_all [gst_siddecfp_set_property_rom, copy_byte_array, romSlot,
        expectedRomSize]
  · rintro s rfl h
    cases p <;>
      simp_all [gst_siddecfp_set_property_rom, copy_byte_array, romSlot,
        expectedRomSize]
  · intro q hq
    cases p <;> cases q <;>
      simp_all [gst_siddecfp_set_property_rom, romSlot]

/-- Witness for the amended C1 theorem at a concrete input: storing a
4096-byte chargen array into an empty state succeeds. -/
theorem set_property_rom_spec_witness :
    romSlot (gst_siddecfp_set_property_rom
      { kernal := none, basic := none, chargen := none }
      .chargen (some (List.replicate 4096 7))) .chargen
      = some (List.replicate 4096 7) :=
  (set_property_rom_spec
      { kernal := none, basic := none, chargen := none }
      .chargen (some (List.replicate 4096 7))).2.2.1
    (List.replicate 4096 7) rfl
    (by rw [List.length_replicate]; rfl)

/-- C2 counterexample: `GST_FLOW_FLUSHING` is neither `GST_FLOW_OK` nor
`GST_FLOW_EOS`, yet the `play_loop` pause path posts no error and
pushes no end-of-stream event for it, contradicting the claim that
every failing non-EOS push result is reported as an error together
with an end-of-stream event. -/
theorem push_flushing_silent_cex :
    GST_FLOW_FLUSHING ≠ GST_FLOW_OK
    ∧ GST_FLOW_FLUSHING ≠ GST_FLOW_EOS
    ∧ (play_loop_push_result GST_FLOW_FLUSHING).loopStops = true
    ∧ (play_loop_push_result GST_FLOW_FLUSHING).errorReported = false
    ∧ (play_loop_push_result GST_FLOW_FLUSHING).eosPushed = false := by
  refine ⟨by decide, by decide, by decide, by decide, by decide⟩

/-- C2 amended: every non-OK push result stops the production loop; an
EOS result pushes an end-of-stream event without reporting an error;
results below `GST_FLOW_EOS` or equal to `GST_FLOW_NOT_LINKED` report
an error and also push end-of-stream; any other non-OK result (such as
`GST_FLOW_FLUSHING` or custom success codes) stops the loop silently,
with neither an error nor an end-of-stream event. -/
theorem play_loop_push_result_spec (ret : Int) :
    (ret ≠ GST_FLOW_OK → (play_loop_push_result ret).loopStops = true)
    ∧ (ret = GST_FLOW_OK → (play_loop_push_result ret).loopStops = false)
    ∧ (ret = GST_FLOW_EOS → play_loop_push_result ret
        = { loopStops := true, eosPushed := true, errorReported := false })
    ∧ (ret ≠ GST_FLOW_OK → (ret < GST_FLOW_EOS ∨ ret = GST_FLOW_NOT_LINKED) →
        play_loop_push_result ret
        = { loopStops := true, eosPushed := true, errorReported := true })
    ∧ (ret ≠ GST_FLOW_OK → ret ≠ GST_FLOW_EOS → ¬(ret < GST_FLOW_EOS) →
        ret ≠ GST_FLOW_NOT_LINKED →
        play_loop_push_result ret
        = { loopStops := true, eosPushed := false, errorReported := false }) := by
  unfold play_loop_push_result GST_FLOW_OK GST_FLOW_EOS GST_FLOW_NOT_LINKED
  refine ⟨?_, ?_, ?_, ?_, ?_⟩ <;> intros <;> split_ifs <;> simp_all <;> omega

/-- Witness for the amended C2 theorem: `GST_FLOW_ERROR` is reported
and forces an end-of-stream event. -/
theorem play_loop_push_result_spec_witness :
    play_loop_push_result GST_FLOW_ERROR
      = { loopStops := true, eosPushed := true, errorReported := true } :=
  (play_loop_push_result_spec GST_FLOW_ERROR).2.2.2.1 (by decide)
    (Or.inl (by decide))

theorem ingest_ok (len : Nat) (cs : List Nat)
    (h : len + cs.sum ≤ MAX_SID_TUNE_BUF_SIZE) :
    ingest len cs = some (len + cs.sum) := by
  induction cs generalizing len with
  | nil => simp [ingest]
  | cons a t ih =>
      have ha : ¬(MAX_SID_TUNE_BUF_SIZE < len + a) := by
        simp [List.sum_cons] at h; omega
      have h2 : len + a + t.sum ≤ MAX_SID_TUNE_BUF_SIZE := by
        simp [List.sum_cons] at h; omega
      simp only [ingest, gst_siddecfp_chain, if_neg ha]
      rw [ih (len + a) h2]
      congr 1
      simp [List.sum_cons]
      omega

theorem ingest_append (len : Nat) (xs ys : List Nat) :
    ingest len (xs ++ ys)
      = match ingest len xs with
        | none => none
        | some l => ingest l ys := by
  induction xs generalizing len with
  | nil => simp [ingest]
  | cons a t ih =>
      simp only [List.cons_append, ingest]
      cases gst_siddecfp_chain len a with
      | none => rfl
      | some l2 => exact ih l2

/-- C6: an append fails (posting a stream error and leaving the stored
length untouched) exactly when the accumulated length plus the chunk
size exceeds `MAX_SID_TUNE_BUF_SIZE` (32768 bytes); each successful
append grows the length by exactly the chunk size; a chunk sequence
whose total fits the capacity is ingested completely, and a sequence
that crosses the capacity fails at the first crossing chunk after all
earlier chunks were accepted. -/
theorem chain_ingest_spec (len c : Nat) (cs pre post : List Nat) :
    (gst_siddecfp_chain len c = none ↔ MAX_SID_TUNE_BUF_SIZE < len + c)
    ∧ (len + c ≤ MAX_SID_TUNE_BUF_SIZE →
        gst_siddecfp_chain len c = some (len + c))
    ∧ (cs.sum ≤ MAX_SID_TUNE_BUF_SIZE → ingest 0 cs = some cs.sum)
    ∧ (pre.sum ≤ MAX_SID_TUNE_BUF_SIZE →
        MAX_SID_TUNE_BUF_SIZE < pre.sum + c →
        ingest 0 pre = some pre.sum
        ∧ ingest 0 (pre ++ c :: post) = none) := by
  refine ⟨?_, ?_, ?_, ?_⟩
  · constructor
    · intro h
      by_contra hc
      simp [gst_siddecfp_chain, hc] at h
    · intro h
      simp [gst_siddecfp_chain, h]
  · intro h
    simp [gst_siddecfp_chain]
    omega
  · intro h
    simpa using ingest_ok 0 cs (by omega)
  · intro h1 h2
    have hpre : ingest 0 pre = some pre.sum := by
      simpa using ingest_ok 0 pre (by omega)
    refine ⟨hpre, ?_⟩
    rw [ingest_append, hpre]
    simp only [ingest, gst_siddecfp_chain, if_pos (show
      MAX_SID_TUNE_BUF_SIZE < pre.sum + c from h2)]

/-- Witness for the C6 theorem: seven 4096-byte chunks followed by one
4097-byte chunk overflow the 32768-byte tune buffer at the last chunk,
while the first seven are all accepted. -/
theorem chain_ingest_spec_witness :
    ingest 0 [4096, 4096, 4096, 4096, 4096, 4096, 4096]
      = some ([4096, 4096, 4096, 4096, 4096, 4096, 4096] : List Nat).sum
    ∧ ingest 0 ([4096, 4096, 4096, 4096, 4096, 4096, 4096] ++ 4097 :: [])
      = none :=
  (chain_ingest_spec 0 4097 [] [4096, 4096, 4096, 4096, 4096, 4096, 4096]
    []).2.2.2 (by decide) (by decide)

/-- C7: negotiation fails when the downstream's allowed caps cannot be
queried (`none`) or when the first normalized candidate carries no
format or a format other than native signed 16-bit PCM; on success the
stored configuration takes the candidate's declared rate and channel
count, defaulting to 44100 Hz and mono when the candidate declares
none, with a declared channel count of 1 or 2 stored as
`MONO`/`STEREO` respectively. -/
theorem siddecfp_negotiate_spec (s : CapsStructure) :
    siddecfp_negotiate none = none
    ∧ (s.format = none → siddecfp_negotiate (some s) = none)
    ∧ (s.format = some .otherFormat → siddecfp_negotiate (some s) = none)
    ∧ (s.format = some .s16 →
        ∃ cfg, siddecfp_negotiate (some s) = some cfg
          ∧ cfg.frequency = s.rate.getD 44100
          ∧ (s.rate = none → cfg.frequency = 44100)
          ∧ (s.channels = none → cfg.playback = 1)
          ∧ (∀ c, s.channels = some c → c = 1 ∨ c = 2 → cfg.playback = c)) := by
  obtain ⟨f, r, ch⟩ := s
  refine ⟨rfl, ?_, ?_, ?_⟩
  · rintro rfl; rfl
  · rintro rfl; rfl
  · rintro rfl
    refine ⟨_, rfl, rfl, ?_, ?_, ?_⟩
    · rintro rfl; rfl
    · rintro rfl; rfl
    · rintro c rfl hc
      rcases hc with rfl | rfl
      · simp [siddecfp_negotiate]
      · simp [siddecfp_negotiate]

/-- Witness for the C7 theorem: a downstream candidate declaring S16 at
48000 Hz stereo negotiates to frequency 48000 and stereo playback. -/
theorem siddecfp_negotiate_spec_witness :
    ∃ cfg, siddecfp_negotiate
        (some { format := some .s16, rate := some 48000, channels := some 2 })
        = some cfg
      ∧ cfg.frequency = 48000 ∧ cfg.playback = 2 := by
  obtain ⟨cfg, h1, h2, _, _, h5⟩ :=
    (siddecfp_negotiate_spec
      { format := some .s16, rate := some 48000, channels := some 2 }).2.2.2 rfl
  exact ⟨cfg, h1, by simpa using h2, h5 2 rfl (Or.inr rfl)⟩

set_option maxRecDepth 8000

/-- C8: on end-of-input the gated build calls run in the source order
song select, load, negotiate, build backend; the first failure posts
its error and returns without attempting any later step, and the
segment announcement, the reset of the playback position, and the
start of the production task happen exactly when all four steps
succeed — so on any build failure the production task never starts and
no buffer can be pushed. -/
theorem start_play_tune_spec (o : BuildOutcomes) :
    (o.selectSongOk = false →
      gst_siddecfp_sink_event o .eos
        = ([.attempt .selectSong, .errorReported .selectSong], false))
    ∧ (o.selectSongOk = true → o.loadOk = false →
      gst_siddecfp_sink_event o .eos
        = ([.attempt .selectSong, .attempt .load, .errorReported .load],
           false))
    ∧ (o.selectSongOk = true → o.loadOk = true → o.negotiateOk = false →
      gst_siddecfp_sink_event o .eos
        = ([.attempt .selectSong, .attempt .load, .attempt .negotiate,
            .errorReported .negotiate], false))
    ∧ (o.selectSongOk = true → o.loadOk = true → o.negotiateOk = true →
      o.createBuilderOk = false →
      gst_siddecfp_sink_event o .eos
        = ([.attempt .selectSong, .attempt .load, .attempt .negotiate,
            .attempt .createBuilder, .errorReported .createBuilder], false))
    ∧ (o.selectSongOk = true → o.loadOk = true → o.negotiateOk = true →
      o.createBuilderOk = true →
      gst_siddecfp_sink_event o .eos
        = ([.attempt .selectSong, .attempt .load, .attempt .negotiate,
            .attempt .createBuilder, .segmentEvent, .resetPosition,
            .startTask], true))
    ∧ (BuildEvent.startTask ∈ (gst_siddecfp_sink_event o .eos).1 ↔
        o.selectSongOk = true ∧ o.loadOk = true ∧ o.negotiateOk = true
        ∧ o.createBuilderOk = true)
    ∧ (BuildEvent.segmentEvent ∈ (gst_siddecfp_sink_event o .eos).1 ↔
        o.selectSongOk = true ∧ o.loadOk = true ∧ o.negotiateOk = true
        ∧ o.createBuilderOk = true)
    ∧ (BuildEvent.resetPosition ∈ (gst_siddecfp_sink_event o .eos).1 ↔
        o.selectSongOk = true ∧ o.loadOk = true ∧ o.negotiateOk = true
        ∧ o.createBuilderOk = true)
    ∧ ((gst_siddecfp_sink_event o .eos).2 = true ↔
        o.selectSongOk = true ∧ o.loadOk = true ∧ o.negotiateOk = true
        ∧ o.createBuilderOk = true)
    ∧ (BuildEvent.attempt .load ∈ (gst_siddecfp_sink_event o .eos).1 ↔
        o.selectSongOk = true)
    ∧ (BuildEvent.attempt .negotiate ∈ (gst_siddecfp_sink_event o .eos).1 ↔
        o.selectSongOk = true ∧ o.loadOk = true)
    ∧ (BuildEvent.attempt .createBuilder ∈ (gst_siddecfp_sink_event o .eos).1 ↔
        o.selectSongOk = true ∧ o.loadOk = true ∧ o.negotiateOk = true) := by
  obtain ⟨a, b, c, d⟩ := o
  refine ⟨?_, ?_, ?_, ?_, ?_, ?_, ?_, ?_, ?_, ?_, ?_, ?_⟩ <;>
    cases a <;> cases b <;> cases c <;> cases d <;> decide

/-- Witness for the C8 theorem: when negotiation fails after song
selection and load succeeded, the trace stops at the negotiation error
and the task is not started. -/
theorem start_play_tune_spec_witness :
    gst_siddecfp_sink_event
      { selectSongOk := true, loadOk := true, negotiateOk := false,
        createBuilderOk := true } .eos
      = ([.attempt .selectSong, .attempt .load, .attempt .negotiate,
          .errorReported .negotiate], false) :=
  (start_play_tune_spec
    { selectSongOk := true, loadOk := true, negotiateOk := false,
      createBuilderOk := true }).2.2.1 rfl rfl rfl

set_option maxRecDepth 512

/-- C10: every buffer produced by a `play_loop` iteration is allocated
with exactly `blocksize` bytes, regardless of how many samples the
emulator actually produced for the `blocksize / 2` it was asked; only
the offset, timestamp, end-offset and duration stamps depend on the
produced count, the end stamps being the unit converter applied to the
position advanced by twice the returned sample count. -/
theorem play_loop_buffer_size_spec (playback frequency blocksize total : Nat)
    (play : Nat → Nat) :
    (play_loop_iter playback frequency blocksize play total).1.size = blocksize
    ∧ (play_loop_iter playback frequency blocksize play total).1.offset
        = gst_siddecfp_src_convert playback frequency .bytes
            (total : Int) .default
    ∧ (play_loop_iter playback frequency blocksize play total).1.timestamp
        = gst_siddecfp_src_convert playback frequency .bytes (total : Int) .time
    ∧ (play_loop_iter playback frequency blocksize play total).1.offsetEnd
        = gst_siddecfp_src_convert playback frequency .bytes
            ((total + play (blocksize / 2) * 2 : Nat) : Int) .default
    ∧ (play_loop_iter playback frequency blocksize play total).1.duration
        = (gst_siddecfp_src_convert playback frequency .bytes
            ((total + play (blocksize / 2) * 2 : Nat) : Int) .time).map
          (fun w => w - (gst_siddecfp_src_convert playback frequency .bytes
            (total : Int) .time).getD 0) :=
  ⟨rfl, rfl, rfl, rfl, rfl⟩

/-- C4: each `play_loop` iteration requests exactly `blocksize / 2`
samples from the emulator and advances the playback position by exactly
the number of bytes produced — twice the sample count the emulator
returned; the buffer's sample offset and its timestamp are derived via
the unit converter from the position before the advance, and its end
offset and duration from the position after it. -/
theorem play_loop_iter_spec (playback frequency blocksize total : Nat)
    (play : Nat → Nat) (hbs : 1 ≤ blocksize) (hpb : 0 < playback) :
    (play_loop_iter playback frequency blocksize play total).2
        = total + 2 * play (blocksize / 2)
    ∧ (play_loop_iter playback frequency blocksize play total).1.offset
        = some ((total / (2 * playback) : Nat) : Int)
    ∧ (play_loop_iter playback frequency blocksize play total).1.timestamp
        = gst_siddecfp_src_convert playback frequency .bytes (total : Int) .time
    ∧ (play_loop_iter playback frequency blocksize play total).1.offsetEnd
        = some (((total + 2 * play (blocksize / 2)) / (2 * playback)
            : Nat) : Int)
    ∧ (play_loop_iter playback frequency blocksize play total).1.duration
        = (gst_siddecfp_src_convert playback frequency .bytes
            ((total + 2 * play (blocksize / 2) : Nat) : Int) .time).map
          (fun w => w - (gst_siddecfp_src_convert playback frequency .bytes
            (total : Int) .time).getD 0) := by
  have e2 : play (blocksize / 2) * 2 = 2 * play (blocksize / 2) :=
    Nat.mul_comm _ _
  refine ⟨?_, ?_, rfl, ?_, ?_⟩
  · show total + play (blocksize / 2) * 2 = total + 2 * play (blocksize / 2)
    omega
  · show gst_siddecfp_src_convert playback frequency .bytes
      (total : Int) .default = _
    exact convert_bytes_default playback frequency hpb total
  · show gst_siddecfp_src_convert playback frequency .bytes
      ((total + play (blocksize / 2) * 2 : Nat) : Int) .default = _
    rw [e2]
    exact convert_bytes_default playback frequency hpb _
  · show (gst_siddecfp_src_convert playback frequency .bytes
      ((total + play (blocksize / 2) * 2 : Nat) : Int) .time).map _ = _
    rw [e2]

/-- Witness for the C4 theorem: with mono output, a 4096-byte
blocksize and an emulator returning 1024 samples, the position
advances from 0 to 2048 bytes and the first buffer carries offset 0
and end offset 1024 samples. -/
theorem play_loop_iter_spec_witness :
    (play_loop_iter 1 44100 4096 (fun _ => 1024) 0).2 = 0 + 2 * 1024
    ∧ (play_loop_iter 1 44100 4096 (fun _ => 1024) 0).1.offset
        = some (((0 : Nat) / (2 * 1) : Nat) : Int)
    ∧ (play_loop_iter 1 44100 4096 (fun _ => 1024) 0).1.offsetEnd
        = some ((((0 + 2 * 1024) : Nat) / (2 * 1) : Nat) : Int) := by
  have h := play_loop_iter_spec 1 44100 4096 0 (fun _ => 1024)
    (by decide) (by decide)
  exact ⟨h.1, h.2.1, h.2.2.2.1⟩

/-- C3 counterexample: with mono 44100 Hz output and a 4096-byte
blocksize, an emulator call that produces zero samples yields two
consecutively produced buffers whose start offsets are both 0, so
successive start offsets are not strictly increasing. -/
theorem session_offsets_not_strict_cex :
    (session_buffer 1 44100 4096 (fun _ _ => 0) 0).offset = some 0
    ∧ (session_buffer 1 44100 4096 (fun _ _ => 0) 1).offset = some 0 := by
  exact ⟨by decide, by decide⟩

/-- C3 amended: the playback position is reset to zero at session start
and never decreases; consecutive buffers are contiguous — buffer `n`'s
end offset equals buffer `n + 1`'s start offset — and successive start
offsets are non-decreasing; they are strictly increasing whenever the
emulator produces at least one sample frame's worth of bytes
(`playback` samples, i.e. `bytes_per_sample` bytes) in the iteration
between them, which the code does not enforce. -/
theorem session_offsets_spec (playback frequency blocksize : Nat)
    (play : Nat → Nat → Nat) (n : Nat) (hpb : 0 < playback) :
    session_total playback frequency blocksize play 0 = 0
    ∧ session_total playback frequency blocksize play n
        ≤ session_total playback frequency blocksize play (n + 1)
    ∧ (session_buffer playback frequency blocksize play n).offsetEnd
        = (session_buffer playback frequency blocksize play (n + 1)).offset
    ∧ ∃ a b : Nat,
        (session_buffer playback frequency blocksize play n).offset
          = some ((a : Nat) : Int)
        ∧ (session_buffer playback frequency blocksize play (n + 1)).offset
          = some ((b : Nat) : Int)
        ∧ a ≤ b
        ∧ (playback ≤ play n (blocksize / 2) → a < b) := by
  have key : session_total playback frequency blocksize play (n + 1)
      = session_total playback frequency blocksize play n
        + play n (blocksize / 2) * 2 := rfl
  refine ⟨rfl, ?_, rfl, ?_⟩
  · rw [key]; exact Nat.le_add_right _ _
  · refine ⟨session_total playback frequency blocksize play n / (2 * playback),
      session_total playback frequency blocksize play (n + 1) / (2 * playback),
      ?_, ?_, ?_, ?_⟩
    · show gst_siddecfp_src_convert playback frequency .bytes
        ((session_total playback frequency blocksize play n : Nat) : Int)
        .default = _
      exact convert_bytes_default playback frequency hpb _
    · show gst_siddecfp_src_convert playback frequency .bytes
        ((session_total playback frequency blocksize play (n + 1) : Nat) : Int)
        .default = _
      exact convert_bytes_default playback frequency hpb _
    · exact Nat.div_le_div_right (by rw [key]; exact Nat.le_add_right _ _)
    · intro hplay
      have h1 : session_total playback frequency blocksize play n
          + 2 * playback
          ≤ session_total playback frequency blocksize play (n + 1) := by
        rw [key]; omega
      have h2 : (session_total playback frequency blocksize play n
          + 2 * playback) / (2 * playback)
          = session_total playback frequency blocksize play n / (2 * playback)
            + 1 :=
        Nat.add_div_right _ (by omega)
      have h3 : (session_total playback frequency blocksize play n
            + 2 * playback) / (2 * playback)
          ≤ session_total playback frequency blocksize play (n + 1)
            / (2 * playback) :=
        Nat.div_le_div_right h1
      omega

/-- Witness for the amended C3 theorem: with mono output and an
emulator that always returns a full 2048-sample block, buffer 0 ends
where buffer 1 starts and the session position starts at zero. -/
theorem session_offsets_spec_witness :
    session_total 1 44100 4096 (fun _ _ => 2048) 0 = 0
    ∧ (session_buffer 1 44100 4096 (fun _ _ => 2048) 0).offsetEnd
        = (session_buffer 1 44100 4096 (fun _ _ => 2048) 1).offset := by
  have h := session_offsets_spec 1 44100 4096 (fun _ _ => 2048) 0 (by decide)
  exact ⟨h.1, h.2.2.1⟩

theorem scale_roundtrip_nat (a D : Nat) (hD0 : 0 < D) (hDN : D ≤ GST_SECOND)
    (hfit : a * GST_SECOND < 2 ^ 63 * D) :
    a * GST_SECOND / D < 2 ^ 63
    ∧ (a * GST_SECOND / D) * D / GST_SECOND ≤ a
    ∧ a ≤ (a * GST_SECOND / D) * D / GST_SECOND + 1 := by
  have hN : 0 < GST_SECOND := by norm_num [GST_SECOND]
  have hlt : a * GST_SECOND / D < 2 ^ 63 :=
    Nat.div_lt_of_lt_mul
      (by rw [Nat.mul_comm ((2 : Nat) ^ 63) D] at hfit; exact hfit)
  have f1 : D * (a * GST_SECOND / D) + (a * GST_SECOND) % D = a * GST_SECOND :=
    Nat.div_add_mod _ _
  have f2 : (a * GST_SECOND) % D < D := Nat.mod_lt _ hD0
  have f3 : GST_SECOND * ((a * GST_SECOND / D) * D / GST_SECOND)
      + ((a * GST_SECOND / D) * D) % GST_SECOND = (a * GST_SECOND / D) * D :=
    Nat.div_add_mod _ _
  have f4 : ((a * GST_SECOND / D) * D) % GST_SECOND < GST_SECOND :=
    Nat.mod_lt _ hN
  rw [Nat.mul_comm D (a * GST_SECOND / D)] at f1
  rw [← f3] at f1
  refine ⟨hlt, ?_, ?_⟩ <;>
    simp only [GST_SECOND] at f1 f2 f4 hDN ⊢ <;> omega

/-- C5 counterexample: at rate 8000 Hz, mono, the positive byte value
`2 ^ 62` converts to TIME as `-1` (the unsigned scaling saturates at
`G_MAXUINT64`, which reads back as the signed value `-1`), and
converting that back to BYTES yields 295147905179352 — which differs
from `2 ^ 62` by far more than `bytes_per_sample = 2`, so the claimed
round-trip bound does not hold for every positive value. -/
theorem bytes_time_roundtrip_cex :
    gst_siddecfp_src_convert 1 8000 .bytes (2 ^ 62) .time = some (-1)
    ∧ gst_siddecfp_src_convert 1 8000 .time (-1) .bytes
        = some 295147905179352
    ∧ ¬((2 ^ 62 : Int) - 295147905179352 ≤ ((2 * 1 : Nat) : Int)) := by
  exact ⟨by decide, by decide, by decide⟩

/-- C5 amended: for every rate in 8000–48000, channel count 1 or 2, and
positive value whose BYTES→TIME image fits in the signed 64-bit range
(`value * 10^9 < 2^63 * bytes_per_sample * rate`), the BYTES→TIME→BYTES
round trip succeeds, is never negative, and differs from the original
by at most `bytes_per_sample = 2 * channel_count` (in fact by at most
one); for larger values the 64-bit scaling saturates and the bound
fails. -/
theorem bytes_time_roundtrip_spec (rate channels : Nat) (v : Int)
    (hr1 : 8000 ≤ rate) (hr2 : rate ≤ 48000)
    (hch : channels = 1 ∨ channels = 2)
    (hv : 0 < v)
    (hfit : v.toNat * GST_SECOND < 2 ^ 63 * (2 * channels * rate)) :
    ∃ t back : Int,
      gst_siddecfp_src_convert channels rate .bytes v .time = some t
      ∧ gst_siddecfp_src_convert channels rate .time t .bytes = some back
      ∧ 0 ≤ back ∧ back ≤ v ∧ v - back ≤ ((2 * channels : Nat) : Int) := by
  obtain ⟨a, rfl⟩ : ∃ a : Nat, v = ((a : Nat) : Int) := ⟨v.toNat, by omega⟩
  simp only [Int.toNat_natCast] at hfit
  have ha1 : 1 ≤ a := by omega
  have hD0 : 0 < 2 * channels * rate := by rcases hch with rfl | rfl <;> omega
  have hDN : 2 * channels * rate ≤ GST_SECOND := by
    rcases hch with rfl | rfl <;> simp only [GST_SECOND] <;> omega
  obtain ⟨hlt, hb1, hb2⟩ :=
    scale_roundtrip_nat a (2 * channels * rate) hD0 hDN hfit
  have ha63 : a < 2 ^ 63 := by
    have h1 : a * GST_SECOND < 2 ^ 63 * GST_SECOND :=
      lt_of_lt_of_le hfit (Nat.mul_le_mul_left _ hDN)
    exact Nat.lt_of_mul_lt_mul_right h1
  have hback63 : (a * GST_SECOND / (2 * channels * rate))
      * (2 * channels * rate) / GST_SECOND < 2 ^ 63 := by omega
  have hconv1 : gst_siddecfp_src_convert channels rate .bytes
      ((a : Nat) : Int) .time
      = some ((a * GST_SECOND / (2 * channels * rate) : Nat) : Int) := by
    rw [convert_bytes_time_def channels rate (by omega) ((a : Nat) : Int)]
    rw [toGuint64_ofNat a (by omega)]
    have hscale1 : gst_util_uint64_scale_int a GST_SECOND
        (2 * channels * rate)
        = a * GST_SECOND / (2 * channels * rate) := by
      unfold gst_util_uint64_scale_int G_MAXUINT64
      omega
    rw [hscale1, toGint64_small _ hlt]
  have hconv2 : gst_siddecfp_src_convert channels rate .time
      ((a * GST_SECOND / (2 * channels * rate) : Nat) : Int) .bytes
      = some (((a * GST_SECOND / (2 * channels * rate))
          * (2 * channels * rate) / GST_SECOND : Nat) : Int) := by
    rw [convert_time_bytes_def channels rate _]
    rw [toGuint64_ofNat _ (by omega)]
    have hscale2 : gst_util_uint64_scale_int
        (a * GST_SECOND / (2 * channels * rate))
        (2 * channels * rate) GST_SECOND
        = (a * GST_SECOND / (2 * channels * rate))
          * (2 * channels * rate) / GST_SECOND := by
      unfold gst_util_uint64_scale_int G_MAXUINT64
      omega
    rw [hscale2, toGint64_small _ hback63]
  refine ⟨_, _, hconv1, hconv2, ?_, ?_, ?_⟩
  · exact Int.natCast_nonneg _
  · exact_mod_cast hb1
  · have hb2i : ((a : Nat) : Int)
        ≤ (((a * GST_SECOND / (2 * channels * rate))
          * (2 * channels * rate) / GST_SECOND : Nat) : Int) + 1 := by
      exact_mod_cast hb2
    have hci : (2 : Int) ≤ ((2 * channels : Nat) : Int) := by
      rcases hch with rfl | rfl <;> norm_num
    omega

/-- Witness for the amended C5 theorem: 1000 bytes at 44100 Hz mono
round-trips through TIME to within 2 bytes. -/
theorem bytes_time_roundtrip_spec_witness :
    ∃ t back : Int,
      gst_siddecfp_src_convert 1 44100 .bytes 1000 .time = some t
      ∧ gst_siddecfp_src_convert 1 44100 .time t .bytes = some back
      ∧ 0 ≤ back ∧ back ≤ 1000 ∧ 1000 - back ≤ ((2 * 1 : Nat) : Int) :=
  bytes_time_roundtrip_spec 44100 1 1000 (by decide) (by decide)
    (Or.inl rfl) (by decide) (by decide)

end SidDecFp
